import Mathlib

/-!
Verification development for the JoulePAI Express paywall middleware
(`joulepai-paywall.js`).  The middleware is embedded shallowly: the
factory closure's mutable structures (the `usedTxIds` Set and the
`verifyTimestamps` array) become an explicit `GateState`, and the async
request handler returned by `charge(amount, recipient)` becomes a pure
step function `chargeStep` from a request, the current clock value, the
remote verification outcome and the state to an outcome, a next state
and the list of log lines emitted.  JavaScript truthiness tests on
possibly-absent strings (`!txId`, `data.reason || d`, `detail || msg`)
are modelled by `jsOrS` / the explicit empty-string cases.
-/

/-- Base URL constant `JOULEPAI_BASE` from the source. -/
def JOULEPAI_BASE : String := "https://joulepai.ai/api/v1"

/-- Capacity bound `MAX_USED_TX` of the replay cache. -/
def MAX_USED_TX : Nat := 10000

/-- Default verification-calls-per-minute limit `DEFAULT_VERIFY_RPM`. -/
def DEFAULT_VERIFY_RPM : Nat := 30

/-- Case-insensitive hexadecimal digit, the character class `[0-9a-f]` of
`UUID_RE` together with its `i` flag. -/
def isHexChar (c : Char) : Bool :=
  (('0' ≤ c && c ≤ '9') || ('a' ≤ c && c ≤ 'f') || ('A' ≤ c && c ≤ 'F'))

/-- Splits a character list at every '-' (hex digits are never '-', so this
captures the group structure of `UUID_RE`). -/
def splitOnDash : List Char → List (List Char)
  | [] => [[]]
  | c :: rest =>
    if c = '-' then [] :: splitOnDash rest
    else
      match splitOnDash rest with
      | [] => [[c]]
      | g :: gs => (c :: g) :: gs

/-- The test `UUID_RE.test txId` for
`/^[0-9a-f]\x7b8\x7d-[0-9a-f]\x7b4\x7d-[0-9a-f]\x7b4\x7d-[0-9a-f]\x7b4\x7d-[0-9a-f]\x7b12\x7d$/i`:
five hyphen-separated groups of hexadecimal digits of lengths 8-4-4-4-12. -/
def UUID_RE_test (s : String) : Bool :=
  match splitOnDash s.data with
  | [a, b, c, d, e] =>
    (a.length = 8 && b.length = 4 && c.length = 4 && d.length = 4 &&
     e.length = 12 && a.all isHexChar && b.all isHexChar && c.all isHexChar &&
     d.all isHexChar && e.all isHexChar)
  | _ => false

/-- JavaScript `o || d` for a possibly-absent string `o`: the empty string is
falsy, so both a missing and an empty value fall back to `d`. -/
def jsOrS : Option String → String → String
  | none, d => d
  | some s, d => if s = "" then d else s

/-- JavaScript `o || d` for a possibly-absent number: `0` is falsy. -/
def jsOrNat : Option Nat → Nat → Nat
  | none, d => d
  | some n, d => if n = 0 then d else n

/-- Structured body of a successful remote verification response
(`data` of the axios call). -/
structure RemoteData where
  verified : Bool
  actual_amount : Int
  actual_recipient : String
  expected_amount : Int
  reason : Option String
  already_claimed : Option Bool
deriving DecidableEq

/-- Outcome of the awaited remote verification call: either a structured
body, or a thrown error carrying `err.response?.status`,
`err.response?.data?.detail` and `err.message`. -/
inductive RemoteResult where
  | ok (d : RemoteData)
  | failure (status : Option Nat) (detail : Option String) (message : String)
deriving DecidableEq

/-- The parts of the incoming request the gate reads: the
`X-Payment-Proof` header (absent = `none`), the method and the path. -/
structure Request where
  proof : Option String
  method : String
  path : String
deriving DecidableEq

/-- The three `instructions` steps embedded in the payment-required body. -/
structure Instructions where
  step1 : String
  step2 : String
  step3 : String
deriving DecidableEq

/-- The `payment` object of a rejection body: the per-route `paymentInfo`
fields, plus the `memo` and `instructions` keys that only the
missing-proof branch adds via object spread (`none` = key absent). -/
structure PaymentBody where
  recipient : String
  amount : Int
  currency : String
  rate : String
  network : String
  transferEndpoint : String
  verifyEndpoint : String
  memo : Option String
  instructions : Option Instructions
deriving DecidableEq

/-- The per-route `paymentInfo` object built once inside
`charge(amount, recipient)`. -/
def basePayment (amount : Int) (recipient : String) : PaymentBody :=
  { recipient := recipient
    amount := amount
    currency := "joules"
    rate := "1,000 joules = $1 USD/USDC"
    network := "joulepai"
    transferEndpoint := JOULEPAI_BASE ++ "/wallet/transfer"
    verifyEndpoint := JOULEPAI_BASE ++ "/wallet/verify-payment"
    memo := none
    instructions := none }

/-- The `instructions` object of the payment-required body. -/
def chargeInstructions (amount : Int) (recipient : String) : Instructions :=
  { step1 := "POST " ++ JOULEPAI_BASE ++
      "/wallet/transfer with \x7b from_wallet_id, to_handle: \"" ++ recipient ++
      "\", amount: " ++ toString amount ++ ", note: \"...\" \x7d"
    step2 := "Extract \"id\" from the response (this is the transaction ID)"
    step3 := "Retry this request with header X-Payment-Proof: \x7btransaction_id\x7d" }

/-- A rejection response sent by the gate: either the x402-family JSON
body (`status`, `protocol`, a `message` or `error` string, an optional
`already_claimed` flag and the `payment` object), or the 429 body. -/
inductive Response where
  | r402 (status : Nat) (protocol : String) (message : Option String)
      (error : Option String) (already_claimed : Option Bool)
      (payment : PaymentBody)
  | r429 (status : Nat) (error : String)
deriving DecidableEq

/-- The record the success path stores in `req.payment`. -/
structure PaymentRecord where
  verified : Bool
  transactionId : String
  amount : Int
  recipient : String
  expectedAmount : Int
deriving DecidableEq

/-- What the middleware does with a request: send a rejection response,
or attach a payment record and delegate to the next handler. -/
inductive GateOutcome where
  | respond (r : Response)
  | proceed (p : PaymentRecord)
deriving DecidableEq

/-- The factory-level mutable state: the `usedTxIds` Set in insertion
order (oldest first) and the `verifyTimestamps` array. -/
structure GateState where
  usedTxIds : List String
  verifyTimestamps : List Int
deriving DecidableEq

/-- The `while`/`shift` pruning loop of `isVerifyRateLimited`: drop the
leading timestamps older than `now - 60000`. -/
def windowPrune (now : Int) (ts : List Int) : List Int :=
  ts.dropWhile (fun t => decide (t < now - 60000))

/-- Function `isVerifyRateLimited`: prune the window, report `true` (and record
nothing) when the pruned window has reached `rpmLimit`, otherwise push
`now` and report `false`.  Returns the flag with the updated array. -/
def isVerifyRateLimited (rpmLimit : Nat) (now : Int) (ts : List Int) :
    Bool × List Int :=
  let pruned := windowPrune now ts
  if rpmLimit ≤ pruned.length then (true, pruned) else (false, pruned ++ [now])

/-- The 402 payment-required response of the missing-proof branch: the
spread of `paymentInfo` plus a memo of the request's method and path and
the three instruction steps. -/
def paymentRequired (amount : Int) (recipient : String) (req : Request) :
    Response :=
  .r402 402 "x402" (some "Payment required") none none
    { basePayment amount recipient with
      memo := some (req.method ++ " " ++ req.path)
      instructions := some (chargeInstructions amount recipient) }

/-- The log line of `console.error` in the catch branch:
an absent `err.response?.status` interpolates as "undefined", and the
detail falls back to `err.message` under JavaScript truthiness. -/
def verifyFailedLog (status : Option Nat) (detail : Option String)
    (message : String) : String :=
  "[joulepai-paywall] verify failed: " ++
    (match status with
     | some n => toString n
     | none => "undefined") ++ " " ++ jsOrS detail message

/-- The `try`/`catch` region of the handler, entered after the rate
limiter recorded the attempt: on a thrown error reject 402 with the
best-effort detail and log; on `verified: false` reject 402 surfacing
`data.reason || default` and `data.already_claimed || false`; on
`verified: true` insert the token into the replay cache (evicting the
oldest entry when at `MAX_USED_TX` capacity), attach the payment record
and delegate. -/
def handleRemote (amount : Int) (recipient : String) (txId : String)
    (remote : RemoteResult) (s : GateState) :
    GateOutcome × GateState × List String :=
  match remote with
  | .failure status detail message =>
    (.respond (.r402 402 "x402" none
        (some (jsOrS detail "Payment verification failed")) none
        (basePayment amount recipient)),
      s, [verifyFailedLog status detail message])
  | .ok d =>
    if d.verified = false then
      (.respond (.r402 402 "x402" none
          (some (jsOrS d.reason "Payment not verified"))
          (some (d.already_claimed.getD false))
          (basePayment amount recipient)),
        s, [])
    else
      let evicted :=
        if MAX_USED_TX ≤ s.usedTxIds.length then s.usedTxIds.tail
        else s.usedTxIds
      (.proceed
          { verified := true
            transactionId := txId
            amount := d.actual_amount
            recipient := d.actual_recipient
            expectedAmount := d.expected_amount },
        { s with usedTxIds := evicted ++ [txId] }, [])

/-- The request handler returned by `charge(amount, recipient)`, one
request as one step: extract the header (JavaScript `!txId` treats an
empty value as missing), validate the UUID format, check the replay
cache, run the rate limiter, then hand over to the remote-call region. -/
def chargeStep (amount : Int) (recipient : String) (rpmLimit : Nat)
    (req : Request) (now : Int) (remote : RemoteResult) (s : GateState) :
    GateOutcome × GateState × List String :=
  match req.proof with
  | none => (.respond (paymentRequired amount recipient req), s, [])
  | some txId =>
    if txId = "" then (.respond (paymentRequired amount recipient req), s, [])
    else if UUID_RE_test txId = false then
      (.respond (.r402 402 "x402" none
          (some "Invalid transaction ID format") none
          (basePayment amount recipient)), s, [])
    else if s.usedTxIds.contains txId then
      (.respond (.r402 402 "x402" none
          (some "Transaction already used") none
          (basePayment amount recipient)), s, [])
    else
      match isVerifyRateLimited rpmLimit now s.verifyTimestamps with
      | (true, ts) =>
        (.respond (.r429 429 "Too many verification attempts, try again shortly"),
          { s with verifyTimestamps := ts }, [])
      | (false, ts) =>
        handleRemote amount recipient txId remote
          { s with verifyTimestamps := ts }

/-- A configured paywall factory instance: the API key captured by the
axios client and the resolved per-minute verification limit. -/
structure Paywall where
  apiKey : String
  rpmLimit : Nat
deriving DecidableEq

/-- The factory `paywall(\x7b apiKey, verifyRateLimit \x7d)`: a missing or
empty (falsy) `apiKey` throws; otherwise the instance is built with
`rpmLimit = verifyRateLimit || DEFAULT_VERIFY_RPM`. -/
def paywall (apiKey : Option String) (verifyRateLimit : Option Nat) :
    Except String Paywall :=
  match apiKey with
  | none => .error "joulepai-paywall: apiKey is required for payment verification"
  | some k =>
    if k = "" then
      .error "joulepai-paywall: apiKey is required for payment verification"
    else .ok { apiKey := k, rpmLimit := jsOrNat verifyRateLimit DEFAULT_VERIFY_RPM }

/-- Method `pw.charge(amount, recipient)`: the middleware for one route, closing
over the factory instance's rate limit (and its shared state). -/
def Paywall.charge (p : Paywall) (amount : Int) (recipient : String) :
    Request → Int → RemoteResult → GateState → GateOutcome × GateState × List String :=
  chargeStep amount recipient p.rpmLimit

example : UUID_RE_test "11111111-1111-1111-1111-111111111111" = true := by decide

example : UUID_RE_test "11111111-1111-1111-1111-11111111111" = false := by decide

example : UUID_RE_test "" = false := by decide

example : UUID_RE_test "g1111111-1111-1111-1111-111111111111" = false := by decide

/-! Branch equations for `chargeStep`, shared by the claim theorems. -/

theorem chargeStep_missing_eq (amount : Int) (recipient : String) (l : Nat)
    (req : Request) (now : Int) (remote : RemoteResult) (s : GateState)
    (hp : req.proof = none) :
    chargeStep amount recipient l req now remote s =
      (.respond (paymentRequired amount recipient req), s, []) := by
  obtain ⟨pf, m, p⟩ := req
  cases hp
  rfl

theorem chargeStep_empty_eq (amount : Int) (recipient : String) (l : Nat)
    (req : Request) (now : Int) (remote : RemoteResult) (s : GateState)
    (hp : req.proof = some "") :
    chargeStep amount recipient l req now remote s =
      (.respond (paymentRequired amount recipient req), s, []) := by
  obtain ⟨pf, m, p⟩ := req
  cases hp
  rfl

theorem chargeStep_invalid_eq (amount : Int) (recipient : String) (l : Nat)
    (req : Request) (now : Int) (remote : RemoteResult) (s : GateState)
    (t : String) (hp : req.proof = some t) (hne : t ≠ "")
    (hu : UUID_RE_test t = false) :
    chargeStep amount recipient l req now remote s =
      (.respond (.r402 402 "x402" none
        (some ("Invalid transaction ID format")) none
        (basePayment amount recipient)), s, []) := by
  obtain ⟨pf, m, p⟩ := req
  cases hp
  simp [chargeStep, hne, hu]

theorem chargeStep_replay_eq (amount : Int) (recipient : String) (l : Nat)
    (req : Request) (now : Int) (remote : RemoteResult) (s : GateState)
    (t : String) (hp : req.proof = some t) (hne : t ≠ "")
    (hu : UUID_RE_test t = true) (hc : s.usedTxIds.contains t = true) :
    chargeStep amount recipient l req now remote s =
      (.respond (.r402 402 "x402" none
        (some ("Transaction already used")) none
        (basePayment amount recipient)), s, []) := by
  obtain ⟨pf, m, p⟩ := req
  cases hp
  simp at hc
  simp [chargeStep, hne, hu, hc]

theorem isVerifyRateLimited_true_eq (l : Nat) (now : Int) (ts : List Int)
    (h : l ≤ (windowPrune now ts).length) :
    isVerifyRateLimited l now ts = (true, windowPrune now ts) := by
  simp [isVerifyRateLimited, h]

theorem isVerifyRateLimited_false_eq (l : Nat) (now : Int) (ts : List Int)
    (h : (windowPrune now ts).length < l) :
    isVerifyRateLimited l now ts = (false, windowPrune now ts ++ [now]) := by
  simp [isVerifyRateLimited, Nat.not_le.mpr h]

theorem chargeStep_limited_eq (amount : Int) (recipient : String) (l : Nat)
    (req : Request) (now : Int) (remote : RemoteResult) (s : GateState)
    (t : String) (hp : req.proof = some t) (hne : t ≠ "")
    (hu : UUID_RE_test t = true) (hc : s.usedTxIds.contains t = false)
    (hl : l ≤ (windowPrune now s.verifyTimestamps).length) :
    chargeStep amount recipient l req now remote s =
      (.respond (.r429 429 ("Too many verification attempts, try again shortly")),
        { usedTxIds := s.usedTxIds,
          verifyTimestamps := windowPrune now s.verifyTimestamps }, []) := by
  obtain ⟨pf, m, p⟩ := req
  cases hp
  simp at hc
  simp [chargeStep, hne, hu, hc, isVerifyRateLimited_true_eq l now _ hl]

theorem chargeStep_unlimited_eq (amount : Int) (recipient : String) (l : Nat)
    (req : Request) (now : Int) (remote : RemoteResult) (s : GateState)
    (t : String) (hp : req.proof = some t) (hne : t ≠ "")
    (hu : UUID_RE_test t = true) (hc : s.usedTxIds.contains t = false)
    (hl : (windowPrune now s.verifyTimestamps).length < l) :
    chargeStep amount recipient l req now remote s =
      handleRemote amount recipient t remote
        { usedTxIds := s.usedTxIds,
          verifyTimestamps := windowPrune now s.verifyTimestamps ++ [now] } := by
  obtain ⟨pf, m, p⟩ := req
  cases hp
  simp at hc
  simp [chargeStep, hne, hu, hc, isVerifyRateLimited_false_eq l now _ hl]

theorem handleRemote_negative_eq (amount : Int) (recipient : String)
    (t : String) (d : RemoteData) (s : GateState) (hv : d.verified = false) :
    handleRemote amount recipient t (.ok d) s =
      (.respond (.r402 402 "x402" none
        (some (jsOrS d.reason ("Payment not verified")))
        (some (d.already_claimed.getD false))
        (basePayment amount recipient)), s, []) := by
  simp [handleRemote, hv]

theorem handleRemote_verified_eq (amount : Int) (recipient : String)
    (t : String) (d : RemoteData) (s : GateState) (hv : d.verified = true) :
    handleRemote amount recipient t (.ok d) s =
      (.proceed
        { verified := true
          transactionId := t
          amount := d.actual_amount
          recipient := d.actual_recipient
          expectedAmount := d.expected_amount },
        { s with usedTxIds :=
            (if MAX_USED_TX ≤ s.usedTxIds.length then s.usedTxIds.tail
             else s.usedTxIds) ++ [t] }, []) := by
  simp [handleRemote, hv]

theorem dropWhile_lt_eq_filter_of_sorted (W : Int) (ts : List Int)
    (h : ts.Pairwise (· ≤ ·)) :
    ts.dropWhile (fun t => decide (t < W)) =
      ts.filter (fun t => decide (W ≤ t)) := by
  induction ts with
  | nil => rfl
  | cons a rest ih =>
    rw [List.pairwise_cons] at h
    obtain ⟨ha, hrest⟩ := h
    by_cases hw : a < W
    · have hna : ¬ W ≤ a := not_le.mpr hw
      simp [List.dropWhile_cons, List.filter_cons, hw, hna, ih hrest]
    · have hWa : W ≤ a := not_lt.mp hw
      simp only [List.dropWhile_cons, List.filter_cons, decide_eq_true hWa,
        decide_eq_true_eq]
      rw [if_neg hw]
      simp only [if_pos True.intro]
      have : rest.filter (fun t => decide (W ≤ t)) = rest := by
        rw [List.filter_eq_self]
        intro u hu
        exact decide_eq_true (le_trans hWa (ha u hu))
      rw [this]

theorem windowPrune_length_le (now : Int) (ts : List Int) :
    (windowPrune now ts).length ≤ ts.length := by
  induction ts with
  | nil => simp [windowPrune]
  | cons a t ih =>
    rw [windowPrune, List.dropWhile_cons]
    split
    · exact le_trans ih (Nat.le_succ _)
    · simp

theorem rateLimited_false_of_expired_head (l : Nat) (now hd : Int)
    (tl : List Int) (hlen : (hd :: tl).length ≤ l) (hexp : hd < now - 60000) :
    (isVerifyRateLimited l now (hd :: tl)).1 = false := by
  have h1 : windowPrune now (hd :: tl) = windowPrune now tl := by
    simp [windowPrune, List.dropWhile_cons, hexp]
  have h2 : (windowPrune now tl).length ≤ tl.length := windowPrune_length_le now tl
  have hlen' : tl.length + 1 ≤ l := by simpa using hlen
  have h3 : (windowPrune now (hd :: tl)).length < l := by
    rw [h1]; omega
  simp [isVerifyRateLimited, Nat.not_le.mpr h3]

theorem chargeStep_ok_log_nil (amount : Int) (recipient : String) (l : Nat)
    (req : Request) (now : Int) (d : RemoteData) (s : GateState) :
    (chargeStep amount recipient l req now (.ok d) s).2.2 = [] := by
  obtain ⟨pf, m, p⟩ := req
  cases pf with
  | none => rfl
  | some t =>
    by_cases h1 : t = ""
    · subst h1; rfl
    · by_cases h2 : UUID_RE_test t = false
      · rw [chargeStep_invalid_eq amount recipient l ⟨some t, m, p⟩ now (.ok d) s t rfl h1 h2]
      · have h2' : UUID_RE_test t = true := by
          revert h2; cases UUID_RE_test t <;> simp
        by_cases h3 : s.usedTxIds.contains t = true
        · rw [chargeStep_replay_eq amount recipient l ⟨some t, m, p⟩ now (.ok d) s t rfl h1 h2' h3]
        · have h3' : s.usedTxIds.contains t = false := by
            revert h3; cases s.usedTxIds.contains t <;> simp
          by_cases h4 : l ≤ (windowPrune now s.verifyTimestamps).length
          · rw [chargeStep_limited_eq amount recipient l ⟨some t, m, p⟩ now (.ok d) s t rfl h1 h2' h3' h4]
          · rw [chargeStep_unlimited_eq amount recipient l ⟨some t, m, p⟩ now (.ok d) s t rfl h1 h2' h3' (Nat.lt_of_not_le h4)]
            by_cases h5 : d.verified = false
            · rw [handleRemote_negative_eq amount recipient t d _ h5]
            · have h5' : d.verified = true := by
                revert h5; cases d.verified <;> simp
              rw [handleRemote_verified_eq amount recipient t d _ h5']

example : ("GET" ++ " " ++ "/x" : String) = "GET /x" := by decide

/-- Claim C8: for every request missing the X-Payment-Proof header, the gate
responds 402 with protocol "x402", the message "Payment required", and a
payment object whose amount and recipient equal the configured values,
carrying the step-by-step instructions and a memo of the request's method
and path; the state is untouched and the gate does not proceed further. -/
theorem C8_missing_header (amount : Int) (recipient : String) (l : Nat)
    (req : Request) (now : Int) (remote : RemoteResult) (s : GateState)
    (hp : req.proof = none) :
    chargeStep amount recipient l req now remote s =
      (.respond (.r402 402 "x402" (some ("Payment required")) none none
        { basePayment amount recipient with
          memo := some (req.method ++ " " ++ req.path)
          instructions := some (chargeInstructions amount recipient) }),
        s, []) ∧
    (basePayment amount recipient).amount = amount ∧
    (basePayment amount recipient).recipient = recipient :=
  ⟨chargeStep_missing_eq amount recipient l req now remote s hp, rfl, rfl⟩

/-- Witness for C8 at a concrete request. -/
theorem C8_missing_header_witness :
    chargeStep 500 "@acct" 30
        { proof := none, method := "GET", path := "/api/generate" } 0
        (.ok { verified := true, actual_amount := 500, actual_recipient := "acct",
               expected_amount := 500, reason := none, already_claimed := none })
        { usedTxIds := [], verifyTimestamps := [] } =
      (.respond (.r402 402 "x402" (some ("Payment required")) none none
        { basePayment 500 "@acct" with
          memo := some ("GET /api/generate")
          instructions := some (chargeInstructions 500 "@acct") }),
        { usedTxIds := [], verifyTimestamps := [] }, []) := by
  have h := C8_missing_header 500 "@acct" 30
    { proof := none, method := "GET", path := "/api/generate" } 0
    (.ok { verified := true, actual_amount := 500, actual_recipient := "acct",
           expected_amount := 500, reason := none, already_claimed := none })
    { usedTxIds := [], verifyTimestamps := [] } rfl
  exact h.1.trans (by decide)

/-- Claim C5: a proof token already present in the replay cache is rejected
with 402 "Transaction already used", the state is returned unchanged (so no
rate-limit timestamp is recorded), and the result is the same for every
possible remote outcome — the remote verification service is never
consulted, even if it would answer verified = true. -/
theorem C5_replayed_rejected (amount : Int) (recipient : String) (l : Nat)
    (req : Request) (now : Int) (remote : RemoteResult) (s : GateState)
    (t : String) (hp : req.proof = some t) (hne : t ≠ "")
    (hu : UUID_RE_test t = true) (hc : s.usedTxIds.contains t = true) :
    chargeStep amount recipient l req now remote s =
      (.respond (.r402 402 "x402" none (some ("Transaction already used")) none
        (basePayment amount recipient)), s, []) :=
  chargeStep_replay_eq amount recipient l req now remote s t hp hne hu hc

/-- Witness for C5: a cached token is rejected although the remote result
supplied would have verified it. -/
theorem C5_replayed_rejected_witness :
    chargeStep 500 "@acct" 30
        { proof := some "11111111-1111-1111-1111-111111111111",
          method := "POST", path := "/api/generate" } 0
        (.ok { verified := true, actual_amount := 500, actual_recipient := "acct",
               expected_amount := 500, reason := none, already_claimed := none })
        { usedTxIds := ["11111111-1111-1111-1111-111111111111"],
          verifyTimestamps := [] } =
      (.respond (.r402 402 "x402" none (some ("Transaction already used")) none
        (basePayment 500 "@acct")),
        { usedTxIds := ["11111111-1111-1111-1111-111111111111"],
          verifyTimestamps := [] }, []) :=
  C5_replayed_rejected 500 "@acct" 30
    { proof := some "11111111-1111-1111-1111-111111111111",
      method := "POST", path := "/api/generate" } 0
    (.ok { verified := true, actual_amount := 500, actual_recipient := "acct",
           expected_amount := 500, reason := none, already_claimed := none })
    { usedTxIds := ["11111111-1111-1111-1111-111111111111"],
      verifyTimestamps := [] }
    "11111111-1111-1111-1111-111111111111" rfl (by decide) (by decide) (by decide)

/-- Counterexample to claim C6 as stated: an X-Payment-Proof header that is
present but empty is a token that fails the canonical format, yet the gate
answers with the "Payment required" body (JavaScript `!txId` treats the
empty value as missing) and not with the invalid-format error. -/
theorem C6_counterexample :
    chargeStep 500 "@acct" 30
        { proof := some "", method := "GET", path := "/x" } 0
        (.ok { verified := true, actual_amount := 500, actual_recipient := "acct",
               expected_amount := 500, reason := none, already_claimed := none })
        { usedTxIds := [], verifyTimestamps := [] } =
      (.respond (.r402 402 "x402" (some ("Payment required")) none none
        { basePayment 500 "@acct" with
          memo := some ("GET /x")
          instructions := some (chargeInstructions 500 "@acct") }),
        { usedTxIds := [], verifyTimestamps := [] }, []) ∧
    (chargeStep 500 "@acct" 30
        { proof := some "", method := "GET", path := "/x" } 0
        (.ok { verified := true, actual_amount := 500, actual_recipient := "acct",
               expected_amount := 500, reason := none, already_claimed := none })
        { usedTxIds := [], verifyTimestamps := [] }).1 ≠
      .respond (.r402 402 "x402" none (some ("Invalid transaction ID format"))
        none (basePayment 500 "@acct")) := by
  constructor
  · decide
  · decide

/-- Claim C6 (amended to non-empty tokens): for every request presenting a
non-empty proof token that fails the canonical 8-4-4-4-12 hexadecimal
format, the gate responds 402 with the invalid-format error, the state
(replay cache and rate window) is unchanged, and the result is the same
for every remote outcome — zero remote calls. -/
theorem C6_invalid_format (amount : Int) (recipient : String) (l : Nat)
    (req : Request) (now : Int) (remote : RemoteResult) (s : GateState)
    (t : String) (hp : req.proof = some t) (hne : t ≠ "")
    (hu : UUID_RE_test t = false) :
    chargeStep amount recipient l req now remote s =
      (.respond (.r402 402 "x402" none
        (some ("Invalid transaction ID format")) none
        (basePayment amount recipient)), s, []) :=
  chargeStep_invalid_eq amount recipient l req now remote s t hp hne hu

/-- Witness for C6 at a concrete malformed token. -/
theorem C6_invalid_format_witness :
    chargeStep 500 "@acct" 30
        { proof := some "not-a-uuid", method := "GET", path := "/x" } 0
        (.ok { verified := true, actual_amount := 500, actual_recipient := "acct",
               expected_amount := 500, reason := none, already_claimed := none })
        { usedTxIds := [], verifyTimestamps := [] } =
      (.respond (.r402 402 "x402" none
        (some ("Invalid transaction ID format")) none
        (basePayment 500 "@acct")),
        { usedTxIds := [], verifyTimestamps := [] }, []) :=
  C6_invalid_format 500 "@acct" 30
    { proof := some "not-a-uuid", method := "GET", path := "/x" } 0
    (.ok { verified := true, actual_amount := 500, actual_recipient := "acct",
           expected_amount := 500, reason := none, already_claimed := none })
    { usedTxIds := [], verifyTimestamps := [] }
    "not-a-uuid" rfl (by decide) (by decide)

/-- Claim C2: on a canonical, uncached, unthrottled token for which the
remote service answers verified = true, the gate inserts the token at the
back of the replay cache — first evicting the oldest (front) entry when
the cache holds at least MAX_USED_TX entries — attaches the payment record
built from the proof token and the remote actual/expected fields, and
delegates to the next handler. -/
theorem C2_verified_admit (amount : Int) (recipient : String) (l : Nat)
    (req : Request) (now : Int) (d : RemoteData) (s : GateState)
    (t : String) (hp : req.proof = some t) (hne : t ≠ "")
    (hu : UUID_RE_test t = true) (hc : s.usedTxIds.contains t = false)
    (hl : (windowPrune now s.verifyTimestamps).length < l)
    (hv : d.verified = true) :
    chargeStep amount recipient l req now (.ok d) s =
      (.proceed
        { verified := true
          transactionId := t
          amount := d.actual_amount
          recipient := d.actual_recipient
          expectedAmount := d.expected_amount },
        { usedTxIds :=
            (if MAX_USED_TX ≤ s.usedTxIds.length then s.usedTxIds.tail
             else s.usedTxIds) ++ [t]
          verifyTimestamps := windowPrune now s.verifyTimestamps ++ [now] },
        []) ∧
    t ∈ ((chargeStep amount recipient l req now (.ok d) s).2.1).usedTxIds := by
  have h := (chargeStep_unlimited_eq amount recipient l req now (.ok d) s t
    hp hne hu hc hl).trans (handleRemote_verified_eq amount recipient t d _ hv)
  refine ⟨h, ?_⟩
  rw [h]
  simp

/-- Witness for C2: the spec's concrete scenario (amount 500, recipient
"@acct", remote actual amount and recipient 500 / "acct"). -/
theorem C2_verified_admit_witness :
    chargeStep 500 "@acct" 30
        { proof := some "11111111-1111-1111-1111-111111111111",
          method := "POST", path := "/api/generate" } 0
        (.ok { verified := true, actual_amount := 500, actual_recipient := "acct",
               expected_amount := 500, reason := none, already_claimed := none })
        { usedTxIds := [], verifyTimestamps := [] } =
      (.proceed
        { verified := true
          transactionId := "11111111-1111-1111-1111-111111111111"
          amount := 500
          recipient := "acct"
          expectedAmount := 500 },
        { usedTxIds := ["11111111-1111-1111-1111-111111111111"]
          verifyTimestamps := [0] }, []) := by
  have h := C2_verified_admit 500 "@acct" 30
    { proof := some "11111111-1111-1111-1111-111111111111",
      method := "POST", path := "/api/generate" } 0
    { verified := true, actual_amount := 500, actual_recipient := "acct",
      expected_amount := 500, reason := none, already_claimed := none }
    { usedTxIds := [], verifyTimestamps := [] }
    "11111111-1111-1111-1111-111111111111"
    rfl (by decide) (by decide) (by decide) (by decide) rfl
  exact h.1.trans (by decide)

/-- Counterexample to claim C7 as stated: when the remote structured result
carries verified = false with the reason string "" (supplied but empty),
the 402 body surfaces the default "Payment not verified" instead of the
remote-supplied reason string, because `data.reason || default` treats the
empty string as falsy. -/
theorem C7_counterexample :
    chargeStep 500 "@acct" 30
        { proof := some "11111111-1111-1111-1111-111111111111",
          method := "GET", path := "/x" } 0
        (.ok { verified := false, actual_amount := 0, actual_recipient := "",
               expected_amount := 0, reason := some "", already_claimed := some false })
        { usedTxIds := [], verifyTimestamps := [] } =
      (.respond (.r402 402 "x402" none (some ("Payment not verified"))
        (some false) (basePayment 500 "@acct")),
        { usedTxIds := [], verifyTimestamps := [0] }, []) ∧
    ("Payment not verified" : String) ≠ "" := by
  constructor
  · decide
  · decide

/-- Claim C7 (amended: the fallback also fires on an empty reason): on a
structured verified = false result the gate responds 402 surfacing
`reason || "Payment not verified"` and `already_claimed || false`, and the
proof token is not inserted into the replay cache.  The reason string is
surfaced exactly whenever it is present and non-empty; the default
replaces an absent or empty reason. -/
theorem C7_remote_negative (amount : Int) (recipient : String) (l : Nat)
    (req : Request) (now : Int) (d : RemoteData) (s : GateState)
    (t : String) (hp : req.proof = some t) (hne : t ≠ "")
    (hu : UUID_RE_test t = true) (hc : s.usedTxIds.contains t = false)
    (hl : (windowPrune now s.verifyTimestamps).length < l)
    (hv : d.verified = false) :
    chargeStep amount recipient l req now (.ok d) s =
      (.respond (.r402 402 "x402" none
        (some (jsOrS d.reason ("Payment not verified")))
        (some (d.already_claimed.getD false))
        (basePayment amount recipient)),
        { usedTxIds := s.usedTxIds
          verifyTimestamps := windowPrune now s.verifyTimestamps ++ [now] },
        []) ∧
    (∀ r : String, d.reason = some r → r ≠ "" →
      jsOrS d.reason ("Payment not verified") = r) ∧
    (d.reason = none ∨ d.reason = some "" →
      jsOrS d.reason ("Payment not verified") = "Payment not verified") := by
  refine ⟨(chargeStep_unlimited_eq amount recipient l req now (.ok d) s t
    hp hne hu hc hl).trans (handleRemote_negative_eq amount recipient t d _ hv),
    ?_, ?_⟩
  · intro r hr hne'
    simp [jsOrS, hr, hne']
  · rintro (h | h) <;> simp [jsOrS, h]

/-- Witness for C7 (amended): the spec's "amount mismatch" scenario, the
exact reason string surfacing in the 402 body and the token staying out of
the cache. -/
theorem C7_remote_negative_witness :
    chargeStep 500 "@acct" 30
        { proof := some "11111111-1111-1111-1111-111111111111",
          method := "GET", path := "/x" } 0
        (.ok { verified := false, actual_amount := 200, actual_recipient := "acct",
               expected_amount := 500, reason := some "amount mismatch",
               already_claimed := some false })
        { usedTxIds := [], verifyTimestamps := [] } =
      (.respond (.r402 402 "x402" none (some ("amount mismatch"))
        (some false) (basePayment 500 "@acct")),
        { usedTxIds := [], verifyTimestamps := [0] }, []) := by
  have h := C7_remote_negative 500 "@acct" 30
    { proof := some "11111111-1111-1111-1111-111111111111",
      method := "GET", path := "/x" } 0
    { verified := false, actual_amount := 200, actual_recipient := "acct",
      expected_amount := 500, reason := some "amount mismatch",
      already_claimed := some false }
    { usedTxIds := [], verifyTimestamps := [] }
    "11111111-1111-1111-1111-111111111111"
    rfl (by decide) (by decide) (by decide) (by decide) rfl
  exact h.1.trans (by decide)

/-- Claim C4: when the remote verification call throws (timeout, non-2xx
status or malformed body), the gate responds 402 with the best-effort
detail, never proceeds to the next handler, leaves the replay cache
without the token, and emits the single failure log line; moreover a
non-empty log implies the remote call failed, so this catch branch is the
only path the core logs on. -/
theorem C4_remote_failure (amount : Int) (recipient : String) (l : Nat)
    (req : Request) (now : Int) (st : Option Nat) (det : Option String)
    (msg : String) (s : GateState) (t : String)
    (hp : req.proof = some t) (hne : t ≠ "")
    (hu : UUID_RE_test t = true) (hc : s.usedTxIds.contains t = false)
    (hl : (windowPrune now s.verifyTimestamps).length < l) :
    chargeStep amount recipient l req now (.failure st det msg) s =
      (.respond (.r402 402 "x402" none
        (some (jsOrS det ("Payment verification failed"))) none
        (basePayment amount recipient)),
        { usedTxIds := s.usedTxIds
          verifyTimestamps := windowPrune now s.verifyTimestamps ++ [now] },
        [verifyFailedLog st det msg]) ∧
    (∀ (a2 : Int) (r2 : String) (l2 : Nat) (req2 : Request) (n2 : Int)
        (rem2 : RemoteResult) (s2 : GateState),
      (chargeStep a2 r2 l2 req2 n2 rem2 s2).2.2 ≠ [] →
      ∃ st2 det2 msg2, rem2 = .failure st2 det2 msg2) := by
  constructor
  · exact (chargeStep_unlimited_eq amount recipient l req now
      (.failure st det msg) s t hp hne hu hc hl).trans rfl
  · intro a2 r2 l2 req2 n2 rem2 s2 hlog
    cases rem2 with
    | failure st2 det2 msg2 => exact ⟨st2, det2, msg2, rfl⟩
    | ok d => exact absurd (chargeStep_ok_log_nil a2 r2 l2 req2 n2 d s2) hlog

/-- Witness for C4: a simulated remote timeout yields a 402 rejection, the
token is not cached, and the failure is logged. -/
theorem C4_remote_failure_witness :
    chargeStep 500 "@acct" 30
        { proof := some "11111111-1111-1111-1111-111111111111",
          method := "GET", path := "/x" } 0
        (.failure none none "timeout of 10000ms exceeded")
        { usedTxIds := [], verifyTimestamps := [] } =
      (.respond (.r402 402 "x402" none
        (some ("Payment verification failed")) none
        (basePayment 500 "@acct")),
        { usedTxIds := [], verifyTimestamps := [0] },
        ["[joulepai-paywall] verify failed: undefined timeout of 10000ms exceeded"]) := by
  have h := C4_remote_failure 500 "@acct" 30
    { proof := some "11111111-1111-1111-1111-111111111111",
      method := "GET", path := "/x" } 0 none none
    "timeout of 10000ms exceeded"
    { usedTxIds := [], verifyTimestamps := [] }
    "11111111-1111-1111-1111-111111111111"
    rfl (by decide) (by decide) (by decide) (by decide)
  exact h.1.trans (by decide)

/-- Claim C3: for a request reaching the rate-limit step (valid-format
token not in the replay cache, timestamps sorted as successive pushes keep
them): when the count of timestamps inside the trailing 60-second window
is at or above the limit, the gate answers 429 and records no new
timestamp (the state keeps exactly the in-window timestamps); otherwise it
appends the current instant and proceeds to the remote-call region.
Finally, once the window slides past 60 seconds after the earliest
recorded attempt, that attempt is pruned, so a window previously at the
limit admits a new attempt again. -/
theorem C3_rate_limit :
    (∀ (amount : Int) (recipient : String) (l : Nat) (req : Request)
        (now : Int) (remote : RemoteResult) (s : GateState) (t : String),
      req.proof = some t → t ≠ "" → UUID_RE_test t = true →
      s.usedTxIds.contains t = false →
      s.verifyTimestamps.Pairwise (· ≤ ·) →
      ((l ≤ (s.verifyTimestamps.filter (fun u => decide (now - 60000 ≤ u))).length →
        chargeStep amount recipient l req now remote s =
          (.respond (.r429 429 ("Too many verification attempts, try again shortly")),
            { usedTxIds := s.usedTxIds
              verifyTimestamps :=
                s.verifyTimestamps.filter (fun u => decide (now - 60000 ≤ u)) },
            [])) ∧
       ((s.verifyTimestamps.filter (fun u => decide (now - 60000 ≤ u))).length < l →
        chargeStep amount recipient l req now remote s =
          handleRemote amount recipient t remote
            { usedTxIds := s.usedTxIds
              verifyTimestamps :=
                s.verifyTimestamps.filter (fun u => decide (now - 60000 ≤ u)) ++ [now] }))) ∧
    (∀ (l : Nat) (now hd : Int) (tl : List Int),
      (hd :: tl).length ≤ l → hd < now - 60000 →
      (isVerifyRateLimited l now (hd :: tl)).1 = false) := by
  constructor
  · intro amount recipient l req now remote s t hp hne hu hc hsort
    have hfp : windowPrune now s.verifyTimestamps =
        s.verifyTimestamps.filter (fun u => decide (now - 60000 ≤ u)) :=
      dropWhile_lt_eq_filter_of_sorted (now - 60000) s.verifyTimestamps hsort
    constructor
    · intro hge
      have := chargeStep_limited_eq amount recipient l req now remote s t
        hp hne hu hc (by rw [hfp]; exact hge)
      rw [this, hfp]
    · intro hlt
      have := chargeStep_unlimited_eq amount recipient l req now remote s t
        hp hne hu hc (by rw [hfp]; exact hlt)
      rw [this, hfp]
  · exact rateLimited_false_of_expired_head

/-- Witness for C3: with limit 1 and one in-window timestamp the next
attempt is throttled with 429 and no timestamp is recorded; the same
window observed 61 seconds later is no longer throttled. -/
theorem C3_rate_limit_witness :
    chargeStep 500 "@acct" 1
        { proof := some "11111111-1111-1111-1111-111111111111",
          method := "GET", path := "/x" } 100000
        (.ok { verified := true, actual_amount := 500, actual_recipient := "acct",
               expected_amount := 500, reason := none, already_claimed := none })
        { usedTxIds := [], verifyTimestamps := [50000] } =
      (.respond (.r429 429 ("Too many verification attempts, try again shortly")),
        { usedTxIds := [], verifyTimestamps := [50000] }, []) ∧
    (isVerifyRateLimited 1 111000 [50000]).1 = false := by
  constructor
  · have h := ((C3_rate_limit.1 500 "@acct" 1
      { proof := some "11111111-1111-1111-1111-111111111111",
        method := "GET", path := "/x" } 100000
      (.ok { verified := true, actual_amount := 500, actual_recipient := "acct",
             expected_amount := 500, reason := none, already_claimed := none })
      { usedTxIds := [], verifyTimestamps := [50000] }
      "11111111-1111-1111-1111-111111111111"
      rfl (by decide) (by decide) (by decide) (by simp)).1) (by decide)
    exact h.trans (by decide)
  · exact C3_rate_limit.2 1 111000 50000 [] (by decide) (by decide)

/-- Counterexample to claim C1 as stated: two routes configured on the same
factory instance share the `usedTxIds` Set of the factory closure, so a
token admitted by the first route (amount 500, recipient "@a") is rejected
as already used by the second route (amount 300, recipient "@b") — on the
untouched state the second route would have admitted the same request. -/
theorem C1_counterexample :
    chargeStep 300 "@b" 30
        { proof := some "11111111-1111-1111-1111-111111111111",
          method := "POST", path := "/b" } 1
        (.ok { verified := true, actual_amount := 500, actual_recipient := "b",
               expected_amount := 500, reason := none, already_claimed := none })
        ((chargeStep 500 "@a" 30
          { proof := some "11111111-1111-1111-1111-111111111111",
            method := "POST", path := "/a" } 0
          (.ok { verified := true, actual_amount := 500, actual_recipient := "a",
                 expected_amount := 500, reason := none, already_claimed := none })
          { usedTxIds := [], verifyTimestamps := [] }).2.1) =
      (.respond (.r402 402 "x402" none (some ("Transaction already used")) none
        (basePayment 300 "@b")),
        { usedTxIds := ["11111111-1111-1111-1111-111111111111"],
          verifyTimestamps := [0] }, []) ∧
    (chargeStep 300 "@b" 30
        { proof := some "11111111-1111-1111-1111-111111111111",
          method := "POST", path := "/b" } 1
        (.ok { verified := true, actual_amount := 500, actual_recipient := "b",
               expected_amount := 500, reason := none, already_claimed := none })
        { usedTxIds := [], verifyTimestamps := [] }).1 =
      .proceed
        { verified := true
          transactionId := "11111111-1111-1111-1111-111111111111"
          amount := 500
          recipient := "b"
          expectedAmount := 500 } := by
  constructor
  · decide
  · decide

/-- Claim C1 (amended): all routes configured via `charge` on one factory
instance operate on that factory's single ReplayCache and RateWindow.
After any route admits a token: (1) the shared cache contains it, (2)
every route of the same factory rejects it as already used, whatever
amount, recipient, clock or remote result the second call has, (3) the
admitting route's verification timestamp sits in the shared window, and
(4) any route of the same factory presenting a fresh valid token is
answered 429 whenever that shared window — including the timestamp the
first route recorded — has reached that call's limit.  Distinct factory
instances carry distinct `GateState` values and stay independent. -/
theorem C1_shared_state (a1 a2 : Int) (r1 r2 : String) (l1 l2 : Nat)
    (req1 req2 : Request) (n1 n2 : Int) (d : RemoteData)
    (rem2 : RemoteResult) (s : GateState) (t : String)
    (hp1 : req1.proof = some t) (hne : t ≠ "") (hu : UUID_RE_test t = true)
    (hc : s.usedTxIds.contains t = false)
    (hl : (windowPrune n1 s.verifyTimestamps).length < l1)
    (hv : d.verified = true) (hp2 : req2.proof = some t) :
    ((chargeStep a1 r1 l1 req1 n1 (.ok d) s).2.1).usedTxIds.contains t = true ∧
    chargeStep a2 r2 l2 req2 n2 rem2
        ((chargeStep a1 r1 l1 req1 n1 (.ok d) s).2.1) =
      (.respond (.r402 402 "x402" none (some ("Transaction already used")) none
        (basePayment a2 r2)),
        (chargeStep a1 r1 l1 req1 n1 (.ok d) s).2.1, []) ∧
    ((chargeStep a1 r1 l1 req1 n1 (.ok d) s).2.1).verifyTimestamps =
      windowPrune n1 s.verifyTimestamps ++ [n1] ∧
    (∀ (a3 : Int) (r3 : String) (l3 : Nat) (req3 : Request) (n3 : Int)
        (rem3 : RemoteResult) (t3 : String),
      req3.proof = some t3 → t3 ≠ "" → UUID_RE_test t3 = true →
      ((chargeStep a1 r1 l1 req1 n1 (.ok d) s).2.1).usedTxIds.contains t3 = false →
      l3 ≤ (windowPrune n3
        ((chargeStep a1 r1 l1 req1 n1 (.ok d) s).2.1).verifyTimestamps).length →
      chargeStep a3 r3 l3 req3 n3 rem3
          ((chargeStep a1 r1 l1 req1 n1 (.ok d) s).2.1) =
        (.respond (.r429 429 ("Too many verification attempts, try again shortly")),
          { usedTxIds := ((chargeStep a1 r1 l1 req1 n1 (.ok d) s).2.1).usedTxIds
            verifyTimestamps := windowPrune n3
              ((chargeStep a1 r1 l1 req1 n1 (.ok d) s).2.1).verifyTimestamps },
          [])) := by
  have h1 := (chargeStep_unlimited_eq a1 r1 l1 req1 n1 (.ok d) s t
    hp1 hne hu hc hl).trans (handleRemote_verified_eq a1 r1 t d _ hv)
  have hmem : ((chargeStep a1 r1 l1 req1 n1 (.ok d) s).2.1).usedTxIds.contains t = true := by
    rw [h1]
    simp
  refine ⟨hmem, chargeStep_replay_eq a2 r2 l2 req2 n2 rem2 _ t hp2 hne hu hmem,
    ?_, ?_⟩
  · rw [h1]
  · intro a3 r3 l3 req3 n3 rem3 t3 hp3 hne3 hu3 hc3 hl3
    exact chargeStep_limited_eq a3 r3 l3 req3 n3 rem3 _ t3 hp3 hne3 hu3 hc3 hl3

/-- Witness for C1 (amended) at the concrete two-route scenario on a
factory with verification limit 1: route (500, "@a") admits a token at
time 0 and its timestamp fills the shared window, so route (300, "@b")
presenting a different, fresh, valid token at time 1 is throttled with
429 — the cache membership and the rate-limit decision of the second
route are both driven by the first route's call. -/
theorem C1_shared_state_witness :
    ((chargeStep 500 "@a" 1
        { proof := some "11111111-1111-1111-1111-111111111111",
          method := "POST", path := "/a" } 0
        (.ok { verified := true, actual_amount := 500, actual_recipient := "a",
               expected_amount := 500, reason := none, already_claimed := none })
        { usedTxIds := [], verifyTimestamps := [] }).2.1).usedTxIds.contains
      "11111111-1111-1111-1111-111111111111" = true ∧
    chargeStep 300 "@b" 1
        { proof := some "22222222-2222-2222-2222-222222222222",
          method := "POST", path := "/b" } 1
        (.ok { verified := true, actual_amount := 300, actual_recipient := "b",
               expected_amount := 300, reason := none, already_claimed := none })
        ((chargeStep 500 "@a" 1
          { proof := some "11111111-1111-1111-1111-111111111111",
            method := "POST", path := "/a" } 0
          (.ok { verified := true, actual_amount := 500, actual_recipient := "a",
                 expected_amount := 500, reason := none, already_claimed := none })
          { usedTxIds := [], verifyTimestamps := [] }).2.1) =
      (.respond (.r429 429 ("Too many verification attempts, try again shortly")),
        { usedTxIds := ["11111111-1111-1111-1111-111111111111"]
          verifyTimestamps := [0] }, []) := by
  have h := C1_shared_state 500 300 "@a" "@b" 1 1
    { proof := some "11111111-1111-1111-1111-111111111111",
      method := "POST", path := "/a" }
    { proof := some "11111111-1111-1111-1111-111111111111",
      method := "POST", path := "/b" } 0 1
    { verified := true, actual_amount := 500, actual_recipient := "a",
      expected_amount := 500, reason := none, already_claimed := none }
    (.ok { verified := true, actual_amount := 500, actual_recipient := "b",
           expected_amount := 500, reason := none, already_claimed := none })
    { usedTxIds := [], verifyTimestamps := [] }
    "11111111-1111-1111-1111-111111111111"
    rfl (by decide) (by decide) (by decide) (by decide) rfl rfl
  refine ⟨h.1, ?_⟩
  have h4 := h.2.2.2 300 "@b" 1
    { proof := some "22222222-2222-2222-2222-222222222222",
      method := "POST", path := "/b" } 1
    (.ok { verified := true, actual_amount := 300, actual_recipient := "b",
           expected_amount := 300, reason := none, already_claimed := none })
    "22222222-2222-2222-2222-222222222222"
    rfl (by decide) (by decide) (by decide) (by decide)
  exact h4.trans (by decide)

/-- Counterexample to claim C9 as stated: the invalid-format rejection is a
rejection response of the gate, yet its payment object is the per-route
`paymentInfo` whose memo key is absent — it does not reflect the request's
method and path ("GET /x"). -/
theorem C9_counterexample :
    (chargeStep 500 "@acct" 30
        { proof := some "not-a-uuid", method := "GET", path := "/x" } 0
        (.ok { verified := true, actual_amount := 500, actual_recipient := "acct",
               expected_amount := 500, reason := none, already_claimed := none })
        { usedTxIds := [], verifyTimestamps := [] }).1 =
      .respond (.r402 402 "x402" none (some ("Invalid transaction ID format"))
        none (basePayment 500 "@acct")) ∧
    (basePayment 500 "@acct").memo = none ∧
    (basePayment 500 "@acct").memo ≠ some ("GET /x") := by
  refine ⟨by decide, rfl, by decide⟩

/-- Claim C9 (amended): only the missing-proof rejection rebuilds the
payment object with a memo of the request's method and path (and the
instruction steps); the malformed, replayed, remote-negative and
remote-failure rejections all embed the per-route payment object, whose
memo key is absent. -/
theorem C9_memo_only_missing :
    (∀ (a : Int) (r : String) (l : Nat) (req : Request) (n : Int)
        (rem : RemoteResult) (s : GateState), req.proof = none →
      (chargeStep a r l req n rem s).1 =
        .respond (.r402 402 "x402" (some ("Payment required")) none none
          { basePayment a r with
            memo := some (req.method ++ " " ++ req.path)
            instructions := some (chargeInstructions a r) })) ∧
    (∀ (a : Int) (r : String), (basePayment a r).memo = none) ∧
    (∀ (a : Int) (r : String) (l : Nat) (req : Request) (n : Int)
        (rem : RemoteResult) (s : GateState) (t : String),
      req.proof = some t → t ≠ "" → UUID_RE_test t = false →
      (chargeStep a r l req n rem s).1 =
        .respond (.r402 402 "x402" none (some ("Invalid transaction ID format"))
          none (basePayment a r))) ∧
    (∀ (a : Int) (r : String) (l : Nat) (req : Request) (n : Int)
        (rem : RemoteResult) (s : GateState) (t : String),
      req.proof = some t → t ≠ "" → UUID_RE_test t = true →
      s.usedTxIds.contains t = true →
      (chargeStep a r l req n rem s).1 =
        .respond (.r402 402 "x402" none (some ("Transaction already used"))
          none (basePayment a r))) ∧
    (∀ (a : Int) (r : String) (l : Nat) (req : Request) (n : Int)
        (d : RemoteData) (s : GateState) (t : String),
      req.proof = some t → t ≠ "" → UUID_RE_test t = true →
      s.usedTxIds.contains t = false →
      (windowPrune n s.verifyTimestamps).length < l → d.verified = false →
      (chargeStep a r l req n (.ok d) s).1 =
        .respond (.r402 402 "x402" none
          (some (jsOrS d.reason ("Payment not verified")))
          (some (d.already_claimed.getD false)) (basePayment a r))) ∧
    (∀ (a : Int) (r : String) (l : Nat) (req : Request) (n : Int)
        (st : Option Nat) (det : Option String) (msg : String)
        (s : GateState) (t : String),
      req.proof = some t → t ≠ "" → UUID_RE_test t = true →
      s.usedTxIds.contains t = false →
      (windowPrune n s.verifyTimestamps).length < l →
      (chargeStep a r l req n (.failure st det msg) s).1 =
        .respond (.r402 402 "x402" none
          (some (jsOrS det ("Payment verification failed"))) none
          (basePayment a r))) := by
  refine ⟨?_, ?_, ?_, ?_, ?_, ?_⟩
  · intro a r l req n rem s hp
    rw [chargeStep_missing_eq a r l req n rem s hp]
    rfl
  · intro a r
    rfl
  · intro a r l req n rem s t hp hne hu
    rw [chargeStep_invalid_eq a r l req n rem s t hp hne hu]
  · intro a r l req n rem s t hp hne hu hc
    rw [chargeStep_replay_eq a r l req n rem s t hp hne hu hc]
  · intro a r l req n d s t hp hne hu hc hl hv
    rw [chargeStep_unlimited_eq a r l req n (.ok d) s t hp hne hu hc hl,
      handleRemote_negative_eq a r t d _ hv]
  · intro a r l req n st det msg s t hp hne hu hc hl
    rw [chargeStep_unlimited_eq a r l req n (.failure st det msg) s t hp hne hu hc hl]
    rfl

/-- Witness for C9 (amended): the missing-proof branch at a concrete
request carries the memo, the invalid-format branch at the same route
carries the memo-free per-route payment object. -/
theorem C9_memo_only_missing_witness :
    (chargeStep 500 "@acct" 30
        { proof := none, method := "GET", path := "/x" } 0
        (.ok { verified := true, actual_amount := 500, actual_recipient := "acct",
               expected_amount := 500, reason := none, already_claimed := none })
        { usedTxIds := [], verifyTimestamps := [] }).1 =
      .respond (.r402 402 "x402" (some ("Payment required")) none none
        { basePayment 500 "@acct" with
          memo := some ("GET /x")
          instructions := some (chargeInstructions 500 "@acct") }) := by
  have h := C9_memo_only_missing.1 500 "@acct" 30
    { proof := none, method := "GET", path := "/x" } 0
    (.ok { verified := true, actual_amount := 500, actual_recipient := "acct",
           expected_amount := 500, reason := none, already_claimed := none })
    { usedTxIds := [], verifyTimestamps := [] } rfl
  exact h.trans (by decide)

/-- Claim C10: constructing the factory with a missing or empty (falsy)
apiKey throws the required-key error and produces no gate; with any
non-empty apiKey it returns an instance whose `charge` is the gate
middleware, with `rpmLimit = verifyRateLimit || DEFAULT_VERIFY_RPM`. -/
theorem C10_factory :
    (∀ v, paywall none v =
      .error "joulepai-paywall: apiKey is required for payment verification") ∧
    (∀ v, paywall (some "") v =
      .error "joulepai-paywall: apiKey is required for payment verification") ∧
    (∀ (k : String) (v : Option Nat), k ≠ "" →
      paywall (some k) v =
        .ok { apiKey := k, rpmLimit := jsOrNat v DEFAULT_VERIFY_RPM } ∧
      (∀ (a : Int) (r : String),
        Paywall.charge { apiKey := k, rpmLimit := jsOrNat v DEFAULT_VERIFY_RPM } a r =
          chargeStep a r (jsOrNat v DEFAULT_VERIFY_RPM))) := by
  refine ⟨fun v => rfl, fun v => rfl, ?_⟩
  intro k v hk
  refine ⟨?_, fun a r => rfl⟩
  simp [paywall, hk]

/-- Witness for C10: a non-empty key yields an instance with the default
limit of 30 verification calls per minute. -/
theorem C10_factory_witness :
    paywall (some "sk-test") none =
      Except.ok { apiKey := "sk-test", rpmLimit := 30 } :=
  (C10_factory.2.2 "sk-test" none (by decide)).1
